import Mathlib

/-!
Shallow embedding of `src/static/js/app.js` (the CityScout web UI controller).

JavaScript numbers are modelled as exact rationals (`ℚ`); an absent JSON field
(`undefined`) is modelled as `none : Option ℚ`.  The string renderings of
numbers (`Number.prototype.toLocaleString`, `Number.prototype.toFixed`,
`Intl.NumberFormat` with the en-US locale) are modelled on exact rationals
with the rounding conventions those APIs specify; binary floating-point
representation error (which could only matter at the exact decimal threshold
values such as `0.8 * 70000`) is idealised away.
-/

namespace CityScout

/-! ## Display formatters (app.js lines 166-188) -/

/-- String constant: the "N/A" placeholder used by the formatters. -/
def NA : String := "N/A"

/-- String constant: a minus sign. -/
def minusSign : String := "-"

/-- String constant: the empty string. -/
def emptyStr : String := ""

/-- String constant: a dollar sign. -/
def dollarSign : String := "$"

/-- String constant: a decimal point. -/
def dot : String := "."

/-- Truthiness of an optional JS number: `undefined` and `0` are falsy. -/
def jsTruthy : Option ℚ → Bool
  | none => false
  | some q => decide (q ≠ 0)

/-- JS `a || b` on optional numbers: yields `a` when `a` is truthy, else `b`. -/
def jsOr (a b : Option ℚ) : Option ℚ :=
  if jsTruthy a then a else b

/-- JS `Math.round`: round half toward positive infinity. -/
def jsRound (q : ℚ) : ℤ := ⌊q + 1 / 2⌋

/-- Digits grouped in threes with commas, least significant digit first
(the en-US thousands grouping, reversed). -/
def groupDigitsRev : List Char → List Char
  | a :: b :: c :: d :: rest => a :: b :: c :: ',' :: groupDigitsRev (d :: rest)
  | l => l

/-- The en-US thousands-grouped decimal rendering of a natural number,
e.g. `1234567` renders as "1,234,567". -/
def natGrouped (n : ℕ) : String :=
  String.mk (groupDigitsRev (Nat.toDigits 10 n).reverse).reverse

/-- The fractional block of `Number.prototype.toLocaleString`: `fp < 1000` is
the fraction scaled by 1000; render its three digits and strip trailing
zeros.  Only called with `fp ≠ 0`. -/
def frac3String (fp : ℕ) : String :=
  if fp % 10 ≠ 0 then
    String.mk [Nat.digitChar (fp / 100), Nat.digitChar (fp / 10 % 10), Nat.digitChar (fp % 10)]
  else if fp / 10 % 10 ≠ 0 then
    String.mk [Nat.digitChar (fp / 100), Nat.digitChar (fp / 10 % 10)]
  else
    String.mk [Nat.digitChar (fp / 100)]

/-- `Number.prototype.toLocaleString()` in the en-US locale: at most three
fraction digits (rounding half away from zero), thousands grouping with
commas, no trailing fractional zeros. -/
def toLocaleString (q : ℚ) : String :=
  let scaled : ℕ := (⌊|q| * 1000 + 1 / 2⌋).toNat
  let ip := scaled / 1000
  let fp := scaled % 1000
  (if q < 0 then minusSign else emptyStr) ++ natGrouped ip ++
    (if fp = 0 then emptyStr else dot ++ frac3String fp)

/-- JS number-to-string for a value of the form `n / 10` (the only shape
produced by the "M"/"K" branches of `formatNumber`): an integer prints with
no decimal point, otherwise exactly one fractional digit is printed. -/
def oneDecString (n : ℤ) : String :=
  let s := if n < 0 then minusSign else emptyStr
  let m := n.natAbs
  if m % 10 = 0 then s ++ toString (m / 10)
  else s ++ toString (m / 10) ++ dot ++ toString (m % 10)

/-- `formatNumber` (app.js lines 166-174): `if (!num) return 'N/A';` then the
M / K / `toLocaleString` branches.  The truthiness guard makes `undefined`
and `0` both return "N/A". -/
def formatNumber (num : Option ℚ) : String :=
  match num with
  | none => NA
  | some q =>
    if q = 0 then NA
    else if q ≥ 1000000 then oneDecString (jsRound (q / 100000)) ++ "M"
    else if q ≥ 1000 then oneDecString (jsRound (q / 100)) ++ "K"
    else toLocaleString q

/-- `formatCurrency` (app.js lines 176-183): `if (!amount) return 'N/A';`
then `Intl.NumberFormat('en-US', currency USD, maximumFractionDigits 0)`,
i.e. a dollar sign, thousands grouping, rounding half away from zero. -/
def formatCurrency (amount : Option ℚ) : String :=
  match amount with
  | none => NA
  | some q =>
    if q = 0 then NA
    else (if q < 0 then minusSign else emptyStr) ++ dollarSign ++
      natGrouped (⌊|q| + 1 / 2⌋).toNat

/-- `Number.prototype.toFixed(1)`: the sign is split off first, then the
magnitude is rounded to one fractional digit, ties going to the larger
scaled integer. -/
def toFixed1 (q : ℚ) : String :=
  let s := if q < 0 then minusSign else emptyStr
  let n : ℕ := (⌊|q| * 10 + 1 / 2⌋).toNat
  s ++ toString (n / 10) ++ dot ++ toString (n % 10)

/-- `formatPercentage` (app.js lines 185-188): "N/A" exactly for
`undefined`/`null` (both modelled by `none`), else `value.toFixed(1) + '%'`. -/
def formatPercentage (value : Option ℚ) : String :=
  match value with
  | none => NA
  | some q => toFixed1 q ++ "%"

/-! ## Analysis records and insight generation (app.js lines 88-164) -/

/-- The response payload rendered by the UI.  Numeric fields are optional:
`none` models a field that is absent from the JSON record. -/
structure AnalysisRecord where
  city : String
  state : String
  total_population : Option ℚ
  population : Option ℚ
  population_growth_5yr : Option ℚ
  median_household_income : Option ℚ
  unemployment_rate : Option ℚ

/-- The population block of `generateInsights` (app.js lines 93-104),
threading the `insights` array through. -/
def popStep (data : AnalysisRecord) (insights : List String) : List String :=
  let popVal := jsOr data.total_population data.population
  if jsTruthy popVal then
    let population := popVal.getD 0
    if population > 1000000 then
      insights ++ [data.city ++ " is a major metropolitan area with " ++
        formatNumber (some population) ++ " residents."]
    else if population > 500000 then
      insights ++ [data.city ++ " is a substantial city with " ++
        formatNumber (some population) ++ " residents."]
    else if population > 100000 then
      insights ++ [data.city ++ " is a mid-size city with " ++
        formatNumber (some population) ++ " residents."]
    else
      insights ++ [data.city ++ " is a smaller city with " ++
        formatNumber (some population) ++ " residents."]
  else insights

/-- The growth block of `generateInsights` (app.js lines 107-120); the guard
is `!== undefined`, so only a truly absent field skips the rule. -/
def growthStep (data : AnalysisRecord) (insights : List String) : List String :=
  match data.population_growth_5yr with
  | none => insights
  | some growth =>
    if growth > 10 then
      insights ++ ["Rapid population growth of " ++ formatPercentage (some growth) ++
        " over the past 5 years."]
    else if growth > 5 then
      insights ++ ["Strong population growth of " ++ formatPercentage (some growth) ++
        " over the past 5 years."]
    else if growth > 0 then
      insights ++ ["Moderate population growth of " ++ formatPercentage (some growth) ++
        " over the past 5 years."]
    else if growth < 0 then
      insights ++ ["Population decline of " ++ formatPercentage (some |growth|) ++
        " over the past 5 years."]
    else
      insights ++ ["Population has remained stable over the past 5 years."]

/-- The income block of `generateInsights` (app.js lines 123-136); the guard
is a truthiness test, so a zero income also skips the rule. -/
def incomeStep (data : AnalysisRecord) (insights : List String) : List String :=
  if jsTruthy data.median_household_income then
    let income := data.median_household_income.getD 0
    let nationalMedian : ℚ := 70000
    if income > nationalMedian * 1.3 then
      insights ++ ["Median household income of " ++ formatCurrency (some income) ++
        " is significantly above national average."]
    else if income > nationalMedian * 1.1 then
      insights ++ ["Median household income of " ++ formatCurrency (some income) ++
        " is above national average."]
    else if income < nationalMedian * 0.8 then
      insights ++ ["Median household income of " ++ formatCurrency (some income) ++
        " is below national average."]
    else
      insights ++ ["Median household income of " ++ formatCurrency (some income) ++
        " is close to national average."]
  else insights

/-- The employment block of `generateInsights` (app.js lines 139-150). -/
def empStep (data : AnalysisRecord) (insights : List String) : List String :=
  match data.unemployment_rate with
  | none => insights
  | some unemployment =>
    if unemployment < 3 then
      insights ++ ["Very low unemployment rate of " ++
        formatPercentage (some unemployment) ++ "."]
    else if unemployment < 5 then
      insights ++ ["Low unemployment rate of " ++
        formatPercentage (some unemployment) ++ "."]
    else if unemployment > 8 then
      insights ++ ["Higher unemployment rate of " ++
        formatPercentage (some unemployment) ++ "."]
    else
      insights ++ ["Unemployment rate of " ++ formatPercentage (some unemployment) ++
        " is around national average."]

/-- `generateInsights` (app.js lines 88-150): the four blocks run in order on
an initially empty array. -/
def generateInsights (data : AnalysisRecord) : List String :=
  empStep data (incomeStep data (growthStep data (popStep data [])))

/-- String constant: the fallback sentence of app.js line 162. -/
def noInsightsMsg : String := "No specific insights available with current data."

/-- The list of insight sentences actually rendered into the DOM container
(app.js lines 153-163): the generated sentences, or the single fallback
sentence when no rule fired. -/
def renderedInsights (data : AnalysisRecord) : List String :=
  let insights := generateInsights data
  if insights = [] then [noInsightsMsg] else insights

/-- The population rule viewed on its own: at most one sentence, `none` when
the (truthiness) guard fails. -/
def popInsight (data : AnalysisRecord) : Option String :=
  let popVal := jsOr data.total_population data.population
  if jsTruthy popVal then
    let population := popVal.getD 0
    some (if population > 1000000 then
        data.city ++ " is a major metropolitan area with " ++
          formatNumber (some population) ++ " residents."
      else if population > 500000 then
        data.city ++ " is a substantial city with " ++
          formatNumber (some population) ++ " residents."
      else if population > 100000 then
        data.city ++ " is a mid-size city with " ++
          formatNumber (some population) ++ " residents."
      else
        data.city ++ " is a smaller city with " ++
          formatNumber (some population) ++ " residents.")
  else none

/-- The growth rule viewed on its own. -/
def growthInsight (data : AnalysisRecord) : Option String :=
  match data.population_growth_5yr with
  | none => none
  | some growth =>
    some (if growth > 10 then
        "Rapid population growth of " ++ formatPercentage (some growth) ++
          " over the past 5 years."
      else if growth > 5 then
        "Strong population growth of " ++ formatPercentage (some growth) ++
          " over the past 5 years."
      else if growth > 0 then
        "Moderate population growth of " ++ formatPercentage (some growth) ++
          " over the past 5 years."
      else if growth < 0 then
        "Population decline of " ++ formatPercentage (some |growth|) ++
          " over the past 5 years."
      else
        "Population has remained stable over the past 5 years.")

/-- The income rule viewed on its own. -/
def incomeInsight (data : AnalysisRecord) : Option String :=
  if jsTruthy data.median_household_income then
    let income := data.median_household_income.getD 0
    let nationalMedian : ℚ := 70000
    some (if income > nationalMedian * 1.3 then
        "Median household income of " ++ formatCurrency (some income) ++
          " is significantly above national average."
      else if income > nationalMedian * 1.1 then
        "Median household income of " ++ formatCurrency (some income) ++
          " is above national average."
      else if income < nationalMedian * 0.8 then
        "Median household income of " ++ formatCurrency (some income) ++
          " is below national average."
      else
        "Median household income of " ++ formatCurrency (some income) ++
          " is close to national average.")
  else none

/-- The employment rule viewed on its own. -/
def empInsight (data : AnalysisRecord) : Option String :=
  match data.unemployment_rate with
  | none => none
  | some unemployment =>
    some (if unemployment < 3 then
        "Very low unemployment rate of " ++ formatPercentage (some unemployment) ++ "."
      else if unemployment < 5 then
        "Low unemployment rate of " ++ formatPercentage (some unemployment) ++ "."
      else if unemployment > 8 then
        "Higher unemployment rate of " ++ formatPercentage (some unemployment) ++ "."
      else
        "Unemployment rate of " ++ formatPercentage (some unemployment) ++
          " is around national average.")

/-! ## The request coordinator (app.js lines 25-60 and 190-222) -/

/-- The visible UI state mutated by the controller's show/hide helpers. -/
structure UIState where
  loadingVisible : Bool
  submitDisabled : Bool
  errorMsg : Option String
  resultsVisible : Bool
  displayedRecord : Option AnalysisRecord

/-- `showLoading` (app.js lines 190-195). -/
def showLoading (s : UIState) : UIState :=
  { s with loadingVisible := true, submitDisabled := true }

/-- `hideLoading` (app.js lines 197-202): hides the spinner and re-enables
the submit button. -/
def hideLoading (s : UIState) : UIState :=
  { s with loadingVisible := false, submitDisabled := false }

/-- `showError` (app.js lines 204-207). -/
def showError (message : String) (s : UIState) : UIState :=
  { s with errorMsg := some message }

/-- `hideError` (app.js lines 209-211). -/
def hideError (s : UIState) : UIState :=
  { s with errorMsg := none }

/-- `showResults` (app.js lines 213-217). -/
def showResults (s : UIState) : UIState :=
  { s with resultsVisible := true }

/-- `hideResults` (app.js lines 219-222). -/
def hideResults (s : UIState) : UIState :=
  { s with resultsVisible := false }

/-- `displayResults` (app.js lines 62-86): renders the record (formatted
fields, insights, raw JSON) and shows the results panel. -/
def displayResults (data : AnalysisRecord) (s : UIState) : UIState :=
  showResults { s with displayedRecord := some data }

/-- The service response shape: `{ success: boolean, data?, error? }`. -/
structure ApiResponse where
  success : Bool
  data : Option AnalysisRecord
  error : Option String

/-- Outcome of the awaited `fetch`/`json()` pair: either a parsed response
object, or a rejection (network failure, non-JSON body). -/
inductive ServiceOutcome where
  | throws : ServiceOutcome
  | responds : ApiResponse → ServiceOutcome

/-- String constant: validation message of app.js line 30. -/
def validationMsg : String := "Please enter both city and state."

/-- String constant: fallback service-error message of app.js line 52. -/
def genericServiceErrorMsg : String := "An error occurred while analyzing the city."

/-- String constant: catch-branch message of app.js line 56. -/
def networkErrorMsg : String := "Network error. Please check your connection and try again."

/-- JS `String.prototype.trim`: strip leading and trailing whitespace. -/
def jsTrim (s : String) : String :=
  String.mk ((s.data.dropWhile Char.isWhitespace).reverse.dropWhile Char.isWhitespace).reverse

/-- JS `a || b` where `a` is an optional string: `undefined` and the empty
string are falsy. -/
def jsStrOr (a : Option String) (b : String) : String :=
  match a with
  | none => b
  | some s => if s = emptyStr then b else s

/-- `analyzeCity` (app.js lines 25-60) as a function of the two raw input
field values, the outcome of the single service call, and the UI state at
submission time.  Returns the number of service requests issued and the
final UI state.  A rejected call and a `success: true` response carrying no
record both land in the catch branch (accessing `data.city` of `undefined`
throws inside the `try`). -/
def analyzeCity (cityInput stateInput : String) (svc : ServiceOutcome)
    (s0 : UIState) : ℕ × UIState :=
  let city := jsTrim cityInput
  let state := jsTrim stateInput
  if city = emptyStr ∨ state = emptyStr then
    (0, showError validationMsg s0)
  else
    let s1 := hideResults (hideError (showLoading s0))
    match svc with
    | ServiceOutcome.throws => (1, hideLoading (showError networkErrorMsg s1))
    | ServiceOutcome.responds resp =>
      if resp.success then
        match resp.data with
        | some record => (1, hideLoading (displayResults record s1))
        | none => (1, hideLoading (showError networkErrorMsg s1))
      else
        (1, hideLoading (showError (jsStrOr resp.error genericServiceErrorMsg) s1))

/-- Stated from the spec's words (for the refinement comparison only): the
spec's large-number formatting rule for a present value.
Values ≥ 1,000,000 render as `round(value/100000)/10` followed by "M",
values in [1,000, 1,000,000) similarly with a 100-divisor and "K", and
values < 1,000 render with locale thousands-grouping and no suffix. -/
def formatNumberSpec (v : ℚ) : String :=
  if v ≥ 1000000 then oneDecString (jsRound (v / 100000)) ++ "M"
  else if v ≥ 1000 then oneDecString (jsRound (v / 100)) ++ "K"
  else toLocaleString v

/-! ## Concrete inputs used by the testable-property scenarios -/

/-- String constant: sample city input. -/
def sampleCity : String := "Springfield"

/-- String constant: sample state input. -/
def sampleState : String := "IL"

/-- String constant: a whitespace-only input. -/
def blankInput : String := " "

/-- String constant: the sample service error text. -/
def cityNotFound : String := "City not found"

/-- The record of the success scenario of the spec (section 8). -/
def springfield : AnalysisRecord :=
  { city := sampleCity, state := sampleState, total_population := some 114000,
    population := none, population_growth_5yr := some 3.2,
    median_household_income := some 65000, unemployment_rate := some 4.1 }

/-- A record with all four tracked numeric fields absent. -/
def absentRecord : AnalysisRecord :=
  { city := sampleCity, state := sampleState, total_population := none,
    population := none, population_growth_5yr := none,
    median_household_income := none, unemployment_rate := none }

/-- A record whose population fields and income are present zeros. -/
def zeroRecord : AnalysisRecord :=
  { city := sampleCity, state := sampleState, total_population := some 0,
    population := some 0, population_growth_5yr := none,
    median_household_income := some 0, unemployment_rate := none }

/-- The UI state at page load. -/
def initialUIState : UIState :=
  { loadingVisible := false, submitDisabled := false, errorMsg := none,
    resultsVisible := false, displayedRecord := none }

/-! ## Helper lemmas -/

lemma popStep_eq (data : AnalysisRecord) (insights : List String) :
    popStep data insights = insights ++ (popInsight data).toList := by
  simp only [popStep, popInsight]
  split_ifs <;> simp

lemma growthStep_eq (data : AnalysisRecord) (insights : List String) :
    growthStep data insights = insights ++ (growthInsight data).toList := by
  simp only [growthStep, growthInsight]
  rcases data.population_growth_5yr with _ | growth
  · simp
  · dsimp only
    split_ifs <;> simp

lemma incomeStep_eq (data : AnalysisRecord) (insights : List String) :
    incomeStep data insights = insights ++ (incomeInsight data).toList := by
  simp only [incomeStep, incomeInsight]
  split_ifs <;> simp

lemma empStep_eq (data : AnalysisRecord) (insights : List String) :
    empStep data insights = insights ++ (empInsight data).toList := by
  simp only [empStep, empInsight]
  rcases data.unemployment_rate with _ | unemployment
  · simp
  · dsimp only
    split_ifs <;> simp

lemma jsTruthy_some_zero : jsTruthy (some 0) = false := by
  unfold jsTruthy
  exact decide_eq_false (by simp)

lemma append_percent_ne_NA (s : String) : s ++ "%" ≠ "N/A" := by
  intro h
  have hd : s.data ++ ['%'] = ['N', '/', 'A'] := congrArg String.data h
  have h2 := congrArg List.getLast? hd
  rw [List.getLast?_concat] at h2
  simp at h2

lemma toLocaleString_850 : toLocaleString 850 = "850" := by
  simp only [toLocaleString]
  rw [show ⌊|(850 : ℚ)| * 1000 + 1 / 2⌋ = (850000 : ℤ) by norm_num]
  decide

lemma toLocaleString_zero : toLocaleString 0 = "0" := by
  simp only [toLocaleString]
  rw [show ⌊|(0 : ℚ)| * 1000 + 1 / 2⌋ = (0 : ℤ) by norm_num]
  decide

lemma formatNumber_zero : formatNumber (some 0) = "N/A" := by
  simp only [formatNumber, if_pos rfl]
  decide

lemma formatNumber_2350000 : formatNumber (some 2350000) = "2.4M" := by
  simp only [formatNumber]
  rw [if_neg (by norm_num), if_pos (by norm_num),
    show jsRound ((2350000 : ℚ) / 100000) = 24 by unfold jsRound; norm_num]
  decide

lemma formatNumber_45000 : formatNumber (some 45000) = "45K" := by
  simp only [formatNumber]
  rw [if_neg (by norm_num), if_neg (by norm_num), if_pos (by norm_num),
    show jsRound ((45000 : ℚ) / 100) = 450 by unfold jsRound; norm_num]
  decide

lemma formatNumber_114000 : formatNumber (some 114000) = "114K" := by
  simp only [formatNumber]
  rw [if_neg (by norm_num), if_neg (by norm_num), if_pos (by norm_num),
    show jsRound ((114000 : ℚ) / 100) = 1140 by unfold jsRound; norm_num]
  decide

lemma formatNumber_850 : formatNumber (some 850) = "850" := by
  simp only [formatNumber]
  rw [if_neg (by norm_num), if_neg (by norm_num), if_neg (by norm_num)]
  exact toLocaleString_850

lemma formatCurrency_zero : formatCurrency (some 0) = "N/A" := by
  simp only [formatCurrency, if_pos rfl]
  decide

lemma formatCurrency_65000 : formatCurrency (some 65000) = "$65,000" := by
  simp only [formatCurrency]
  rw [if_neg (by norm_num), show ⌊|(65000 : ℚ)| + 1 / 2⌋ = (65000 : ℤ) by norm_num]
  decide

lemma formatPercentage_zero : formatPercentage (some 0) = "0.0%" := by
  simp only [formatPercentage, toFixed1]
  rw [show ⌊|(0 : ℚ)| * 10 + 1 / 2⌋ = (0 : ℤ) by norm_num]
  decide

lemma formatPercentage_3_2 : formatPercentage (some 3.2) = "3.2%" := by
  simp only [formatPercentage, toFixed1]
  rw [if_neg (by norm_num),
    show ⌊|(3.2 : ℚ)| * 10 + 1 / 2⌋ = (32 : ℤ) by
      rw [abs_of_nonneg (by norm_num : (0 : ℚ) ≤ 3.2)]; norm_num]
  decide

lemma formatPercentage_4_1 : formatPercentage (some 4.1) = "4.1%" := by
  simp only [formatPercentage, toFixed1]
  rw [if_neg (by norm_num),
    show ⌊|(4.1 : ℚ)| * 10 + 1 / 2⌋ = (41 : ℤ) by
      rw [abs_of_nonneg (by norm_num : (0 : ℚ) ≤ 4.1)]; norm_num]
  decide

lemma popInsight_springfield :
    popInsight springfield = some ("Springfield is a mid-size city with 114K residents.") := by
  have ht : jsTruthy (jsOr springfield.total_population springfield.population) = true := by
    simp only [springfield, jsOr, jsTruthy]
    norm_num
  simp only [popInsight, ht, if_true]
  rw [show (jsOr springfield.total_population springfield.population).getD 0 = 114000 by
    simp only [springfield, jsOr, jsTruthy]; norm_num]
  rw [if_neg (by norm_num), if_neg (by norm_num), if_pos (by norm_num), formatNumber_114000]
  simp [springfield, sampleCity]

lemma growthInsight_springfield :
    growthInsight springfield =
      some ("Moderate population growth of 3.2% over the past 5 years.") := by
  simp only [growthInsight, springfield]
  rw [if_neg (by norm_num), if_neg (by norm_num), if_pos (by norm_num), formatPercentage_3_2]
  decide

lemma incomeInsight_springfield :
    incomeInsight springfield =
      some ("Median household income of $65,000 is close to national average.") := by
  have ht : jsTruthy (springfield.median_household_income) = true := by
    simp only [springfield, jsTruthy]
    norm_num
  simp only [incomeInsight, ht, if_true]
  rw [show (springfield.median_household_income).getD 0 = 65000 by simp [springfield]]
  rw [if_neg (by norm_num), if_neg (by norm_num), if_neg (by norm_num), formatCurrency_65000]
  decide

lemma empInsight_springfield :
    empInsight springfield = some ("Low unemployment rate of 4.1%.") := by
  simp only [empInsight, springfield]
  rw [if_neg (by norm_num), if_pos (by norm_num), formatPercentage_4_1]
  decide

lemma generateInsights_springfield :
    generateInsights springfield =
      ["Springfield is a mid-size city with 114K residents.",
       "Moderate population growth of 3.2% over the past 5 years.",
       "Median household income of $65,000 is close to national average.",
       "Low unemployment rate of 4.1%."] := by
  simp [generateInsights, popStep_eq, growthStep_eq, incomeStep_eq, empStep_eq,
    popInsight_springfield, growthInsight_springfield, incomeInsight_springfield,
    empInsight_springfield]

/-! ## Claim theorems -/

/-- C1 counterexample: the claimed example outputs are false on the code.
`formatNumber` maps 2350000 to "2.4M" (`Math.round(23.5)/10 = 2.4`), not
"23.5M", and maps 45000 to "45K" (JS prints the integer 45 with no ".0"),
not "45.0K". -/
theorem formatNumber_claimed_examples_false :
    formatNumber (some 2350000) = "2.4M" ∧ ("2.4M" : String) ≠ "23.5M" ∧
    formatNumber (some 45000) = "45K" ∧ ("45K" : String) ≠ "45.0K" :=
  ⟨formatNumber_2350000, by decide, formatNumber_45000, by decide⟩

/-- C1 (amended): the large-number formatter maps population 2350000 to
"2.4M", population 45000 to "45K", and population 850 to "850". -/
theorem formatNumber_examples :
    formatNumber (some 2350000) = "2.4M" ∧ formatNumber (some 45000) = "45K" ∧
    formatNumber (some 850) = "850" :=
  ⟨formatNumber_2350000, formatNumber_45000, formatNumber_850⟩

/-- C2 counterexample: on the Springfield record the fourth insight is the
low-unemployment sentence (4.1 < 5), not the claimed around-national-average
sentence, so the claimed output list is false on the code. -/
theorem springfield_insights_claimed_false :
    generateInsights springfield =
      ["Springfield is a mid-size city with 114K residents.",
       "Moderate population growth of 3.2% over the past 5 years.",
       "Median household income of $65,000 is close to national average.",
       "Low unemployment rate of 4.1%."] ∧
    generateInsights springfield ≠
      ["Springfield is a mid-size city with 114K residents.",
       "Moderate population growth of 3.2% over the past 5 years.",
       "Median household income of $65,000 is close to national average.",
       "Unemployment rate of 4.1% is around national average."] := by
  refine ⟨generateInsights_springfield, ?_⟩
  rw [generateInsights_springfield]
  decide

/-- C2 (amended): on the Springfield record the insight engine produces
exactly four sentences, in order: the mid-size-city sentence, the
moderate-growth sentence, the close-to-national-average income sentence, and
the low-unemployment sentence. -/
theorem springfield_insights :
    generateInsights springfield =
      ["Springfield is a mid-size city with 114K residents.",
       "Moderate population growth of 3.2% over the past 5 years.",
       "Median household income of $65,000 is close to national average.",
       "Low unemployment rate of 4.1%."] :=
  generateInsights_springfield

/-- C3: the percentage formatter returns "N/A" exactly when its input is
absent; every present value, including 0, renders as the value fixed to one
decimal place followed by "%" (0 renders as "0.0%"). -/
theorem formatPercentage_na_iff_absent :
    (∀ v : Option ℚ, formatPercentage v = "N/A" ↔ v = none) ∧
    formatPercentage (some 0) = "0.0%" ∧
    (∀ q : ℚ, formatPercentage (some q) = toFixed1 q ++ "%") := by
  refine ⟨?_, formatPercentage_zero, fun q => rfl⟩
  intro v
  cases v with
  | none => simp [formatPercentage, NA]
  | some q =>
    simp only [formatPercentage]
    exact ⟨fun h => absurd h (append_percent_ne_NA (toFixed1 q)),
      fun h => Option.noConfusion h⟩

/-- C3 witness: an omitted value formats as "N/A". -/
theorem formatPercentage_na_iff_absent_witness : formatPercentage none = "N/A" :=
  (formatPercentage_na_iff_absent.1 none).mpr rfl

/-- C4: a present zero is treated as missing by the truthiness guards:
`formatNumber(0)` and `formatCurrency(0)` return "N/A", and a record with
both population fields zero, or with a zero income, gets no sentence from
the corresponding insight rule. -/
theorem zero_treated_as_missing :
    formatNumber (some 0) = "N/A" ∧ formatCurrency (some 0) = "N/A" ∧
    (∀ r : AnalysisRecord, r.total_population = some 0 → r.population = some 0 →
      popInsight r = none) ∧
    (∀ r : AnalysisRecord, r.median_household_income = some 0 →
      incomeInsight r = none) := by
  refine ⟨formatNumber_zero, formatCurrency_zero, ?_, ?_⟩
  · intro r h1 h2
    simp [popInsight, jsOr, jsTruthy_some_zero, h1, h2]
  · intro r h
    simp [incomeInsight, jsTruthy_some_zero, h]

/-- C4 witness: the zero-valued record gets neither a population nor an
income insight. -/
theorem zero_treated_as_missing_witness :
    popInsight zeroRecord = none ∧ incomeInsight zeroRecord = none :=
  ⟨zero_treated_as_missing.2.2.1 zeroRecord rfl rfl,
   zero_treated_as_missing.2.2.2 zeroRecord rfl⟩

/-- C5 counterexample: the claim quantifies over every present numeric value,
but at the present value 0 the code returns "N/A" while the spec's rule
renders the locale string "0". -/
theorem formatNumber_zero_not_locale :
    formatNumber (some 0) = "N/A" ∧ formatNumberSpec 0 = "0" ∧
    ("N/A" : String) ≠ "0" := by
  refine ⟨formatNumber_zero, ?_, by decide⟩
  simp only [formatNumberSpec]
  rw [if_neg (by norm_num), if_neg (by norm_num)]
  exact toLocaleString_zero

/-- C5 (amended): for every present nonzero numeric value, `formatNumber`
follows the spec's three-branch rule: `round(v/100000)/10` with suffix "M"
for v ≥ 1,000,000, `round(v/100)/10` with suffix "K" for 1,000 ≤ v <
1,000,000, and the locale thousands-grouped rendering with no suffix for
v < 1,000. -/
theorem formatNumber_agrees_spec (q : ℚ) (h : q ≠ 0) :
    formatNumber (some q) = formatNumberSpec q := by
  simp only [formatNumber, formatNumberSpec, if_neg h]

/-- C5 witness: the agreement evaluated at 850. -/
theorem formatNumber_agrees_spec_witness :
    (850 : ℚ) ≠ 0 ∧ formatNumber (some 850) = formatNumberSpec 850 :=
  ⟨by norm_num, formatNumber_agrees_spec 850 (by norm_num)⟩

/-- C6: when all four tracked fields are absent the rendered insight list is
exactly the single fallback sentence, never the empty list. -/
theorem insights_fallback_when_all_absent (r : AnalysisRecord)
    (h1 : r.total_population = none) (h2 : r.population = none)
    (h3 : r.population_growth_5yr = none) (h4 : r.median_household_income = none)
    (h5 : r.unemployment_rate = none) :
    renderedInsights r = [noInsightsMsg] ∧ renderedInsights r ≠ [] := by
  have hg : generateInsights r = [] := by
    simp [generateInsights, popStep_eq, growthStep_eq, incomeStep_eq, empStep_eq,
      popInsight, growthInsight, incomeInsight, empInsight, jsOr, jsTruthy,
      h1, h2, h3, h4, h5]
  exact ⟨by simp [renderedInsights, hg], by simp [renderedInsights, hg]⟩

/-- C6 witness: the all-absent record renders exactly the fallback. -/
theorem insights_fallback_when_all_absent_witness :
    renderedInsights absentRecord = [noInsightsMsg] ∧ renderedInsights absentRecord ≠ [] :=
  insights_fallback_when_all_absent absentRecord rfl rfl rfl rfl rfl

/-- C7: the insight list decomposes as the concatenation of the four rules in
the fixed order population, growth, income, employment, each contributing at
most one sentence (an `Option`), and a rule whose source field is absent
contributes none. -/
theorem insights_decompose (r : AnalysisRecord) :
    generateInsights r =
      (popInsight r).toList ++ (growthInsight r).toList ++ (incomeInsight r).toList ++
        (empInsight r).toList ∧
    (r.total_population = none → r.population = none → popInsight r = none) ∧
    (r.population_growth_5yr = none → growthInsight r = none) ∧
    (r.median_household_income = none → incomeInsight r = none) ∧
    (r.unemployment_rate = none → empInsight r = none) := by
  refine ⟨?_, ?_, ?_, ?_, ?_⟩
  · simp [generateInsights, popStep_eq, growthStep_eq, incomeStep_eq, empStep_eq]
  · intro h1 h2
    simp [popInsight, jsOr, jsTruthy, h1, h2]
  · intro h
    simp [growthInsight, h]
  · intro h
    simp [incomeInsight, jsTruthy, h]
  · intro h
    simp [empInsight, h]

/-- C7 witness: the decomposition evaluated at the all-absent record, with
the growth rule contributing no sentence. -/
theorem insights_decompose_witness :
    generateInsights absentRecord =
      (popInsight absentRecord).toList ++ (growthInsight absentRecord).toList ++
        (incomeInsight absentRecord).toList ++ (empInsight absentRecord).toList ∧
    growthInsight absentRecord = none :=
  ⟨(insights_decompose absentRecord).1, (insights_decompose absentRecord).2.2.1 rfl⟩

/-- C8: if either input trims to empty, no service request is issued and
exactly the validation message is surfaced; if both trim nonempty, exactly
one service request is issued. -/
theorem submit_validation_and_single_request (cityInput stateInput : String)
    (svc : ServiceOutcome) (s0 : UIState) :
    ((jsTrim cityInput = "" ∨ jsTrim stateInput = "") →
      (analyzeCity cityInput stateInput svc s0).1 = 0 ∧
      (analyzeCity cityInput stateInput svc s0).2.errorMsg = some validationMsg) ∧
    (jsTrim cityInput ≠ "" → jsTrim stateInput ≠ "" →
      (analyzeCity cityInput stateInput svc s0).1 = 1) := by
  constructor
  · intro h
    have hcond : jsTrim cityInput = emptyStr ∨ jsTrim stateInput = emptyStr := h
    simp only [analyzeCity]
    rw [if_pos hcond]
    exact ⟨rfl, rfl⟩
  · intro h1 h2
    have hcond : ¬(jsTrim cityInput = emptyStr ∨ jsTrim stateInput = emptyStr) := by
      push_neg
      exact ⟨h1, h2⟩
    simp only [analyzeCity]
    rw [if_neg hcond]
    cases svc with
    | throws => rfl
    | responds resp =>
      rcases hd : resp.data with _ | rec <;> by_cases hs : resp.success = true <;>
        simp [hd, hs]

/-- C8 witness: a whitespace-only city yields zero requests and the
validation message; nonempty inputs yield one request. -/
theorem submit_validation_witness :
    (analyzeCity blankInput sampleState ServiceOutcome.throws initialUIState).1 = 0 ∧
    (analyzeCity blankInput sampleState ServiceOutcome.throws
        initialUIState).2.errorMsg = some validationMsg ∧
    (analyzeCity sampleCity sampleState ServiceOutcome.throws initialUIState).1 = 1 := by
  have hb := (submit_validation_and_single_request blankInput sampleState
    ServiceOutcome.throws initialUIState).1 (Or.inl (by decide))
  have hv := (submit_validation_and_single_request sampleCity sampleState
    ServiceOutcome.throws initialUIState).2 (by decide) (by decide)
  exact ⟨hb.1, hb.2, hv⟩

/-- C9: on every completion of a submitted request (success, reported
failure, or a thrown call) the loading indicator is cleared and submission
is re-enabled, and the thrown case surfaces the network-error fallback. -/
theorem submit_always_clears_loading (cityInput stateInput : String)
    (svc : ServiceOutcome) (s0 : UIState)
    (h1 : jsTrim cityInput ≠ "") (h2 : jsTrim stateInput ≠ "") :
    (analyzeCity cityInput stateInput svc s0).2.loadingVisible = false ∧
    (analyzeCity cityInput stateInput svc s0).2.submitDisabled = false ∧
    (svc = ServiceOutcome.throws →
      (analyzeCity cityInput stateInput svc s0).2.errorMsg = some networkErrorMsg) := by
  have hcond : ¬(jsTrim cityInput = emptyStr ∨ jsTrim stateInput = emptyStr) := by
    push_neg
    exact ⟨h1, h2⟩
  simp only [analyzeCity]
  rw [if_neg hcond]
  cases svc with
  | throws =>
    exact ⟨rfl, rfl, fun _ => rfl⟩
  | responds resp =>
    rcases hd : resp.data with _ | rec <;> by_cases hs : resp.success = true <;>
      simp [hd, hs, hideLoading, showError, displayResults, showResults,
        hideResults, hideError, showLoading]

/-- C9 witness: the thrown case at concrete inputs clears loading and
surfaces the network-error message. -/
theorem submit_always_clears_loading_witness :
    (analyzeCity sampleCity sampleState ServiceOutcome.throws
        initialUIState).2.loadingVisible = false ∧
    (analyzeCity sampleCity sampleState ServiceOutcome.throws
        initialUIState).2.errorMsg = some networkErrorMsg := by
  have h := submit_always_clears_loading sampleCity sampleState ServiceOutcome.throws
    initialUIState (by decide) (by decide)
  exact ⟨h.1, h.2.2 rfl⟩

/-- C10 counterexample: a failure response whose error text is present but
empty is not passed through verbatim; the generic default message is shown
instead. -/
theorem service_empty_error_gets_generic :
    (analyzeCity sampleCity sampleState
        (ServiceOutcome.responds
          { success := false, data := none, error := some emptyStr })
        initialUIState).2.errorMsg = some genericServiceErrorMsg ∧
    (analyzeCity sampleCity sampleState
        (ServiceOutcome.responds
          { success := false, data := none, error := some emptyStr })
        initialUIState).2.errorMsg ≠ some emptyStr := by
  constructor
  · decide
  · decide

/-- C10 (amended): on a failure response the surfaced message is
`error || generic`: the service text verbatim when present and nonempty, the
generic default when absent or empty; the Results state is never entered and
the formatting engine is never invoked (the displayed record is unchanged). -/
theorem submit_failure_error_surfacing (cityInput stateInput : String)
    (resp : ApiResponse) (s0 : UIState)
    (h1 : jsTrim cityInput ≠ "") (h2 : jsTrim stateInput ≠ "")
    (hs : resp.success = false) :
    (analyzeCity cityInput stateInput (ServiceOutcome.responds resp) s0).2.errorMsg =
      some (jsStrOr resp.error genericServiceErrorMsg) ∧
    (∀ e : String, resp.error = some e → e ≠ "" →
      (analyzeCity cityInput stateInput (ServiceOutcome.responds resp) s0).2.errorMsg =
        some e) ∧
    (resp.error = none →
      (analyzeCity cityInput stateInput (ServiceOutcome.responds resp) s0).2.errorMsg =
        some genericServiceErrorMsg) ∧
    (resp.error = some emptyStr →
      (analyzeCity cityInput stateInput (ServiceOutcome.responds resp) s0).2.errorMsg =
        some genericServiceErrorMsg) ∧
    (analyzeCity cityInput stateInput
      (ServiceOutcome.responds resp) s0).2.resultsVisible = false ∧
    (analyzeCity cityInput stateInput
      (ServiceOutcome.responds resp) s0).2.displayedRecord = s0.displayedRecord := by
  have hcond : ¬(jsTrim cityInput = emptyStr ∨ jsTrim stateInput = emptyStr) := by
    push_neg
    exact ⟨h1, h2⟩
  have hmain : (analyzeCity cityInput stateInput (ServiceOutcome.responds resp) s0).2 =
      hideLoading (showError (jsStrOr resp.error genericServiceErrorMsg)
        (hideResults (hideError (showLoading s0)))) := by
    simp only [analyzeCity]
    rw [if_neg hcond]
    simp [hs]
  refine ⟨?_, ?_, ?_, ?_, ?_, ?_⟩
  · simp [hmain, hideLoading, showError]
  · intro e he hne
    simp [hmain, hideLoading, showError, jsStrOr, he, emptyStr, hne]
  · intro he
    simp [hmain, hideLoading, showError, jsStrOr, he]
  · intro he
    simp [hmain, hideLoading, showError, jsStrOr, he]
  · simp [hmain, hideLoading, showError, hideResults, hideError, showLoading]
  · simp [hmain, hideLoading, showError, hideResults, hideError, showLoading]

/-- C10 witness: a nonempty service error text is surfaced verbatim. -/
theorem submit_failure_error_surfacing_witness :
    (analyzeCity sampleCity sampleState
        (ServiceOutcome.responds
          { success := false, data := none, error := some cityNotFound })
        initialUIState).2.errorMsg = some cityNotFound := by
  have h := submit_failure_error_surfacing sampleCity sampleState
    { success := false, data := none, error := some cityNotFound }
    initialUIState (by decide) (by decide) rfl
  exact h.2.1 cityNotFound rfl (by decide)

end CityScout
